import Mathlib

/-!
Shallow embedding of the wav-audio-player repository (three Python variants of
a playlist-driven WAV playback controller) and proofs about its claims.

Time values (`time.time()` readings, durations, positions) are modelled as `ℚ`;
each handler or monitor tick that reads the wall clock takes the current reading
`now : ℚ` as an argument.  Backend calls (pygame.mixer / VLC) are recorded as an
explicit trace list.  File discovery (`glob` + `sorted`) and WAV metadata probing
(the `wave` module) are external data sources: they enter the model as the
discovered file list and a `probe : String → Option ℚ` function (`none` models
the probe raising an exception).
-/

/-- `os.path.basename`: the part of the path after the last slash. -/
def pyBasenameAux : List Char → List Char → List Char
  | [], acc => acc
  | c :: cs, acc => if c = '/' then pyBasenameAux cs [] else pyBasenameAux cs (acc ++ [c])

/-- `os.path.basename p`. -/
def pyBasename (p : String) : String := String.mk (pyBasenameAux p.data [])

/-- Python `int(x)` on a float: truncation toward zero. -/
def pyInt (x : ℚ) : ℤ := if 0 ≤ x then ⌊x⌋ else -⌊-x⌋

/-- Python `a // b` on floats: floor division. -/
def pyFloorDiv (a b : ℚ) : ℚ := (⌊a / b⌋ : ℚ)

/-- Python `a % b` on floats (for b > 0): `a - b * ⌊a / b⌋`. -/
def pyMod (a b : ℚ) : ℚ := a - b * ⌊a / b⌋

/-- Python `f"{n:02d}"`: decimal rendering padded to width 2. -/
def pyPad2 (n : ℤ) : String := if 0 ≤ n ∧ n < 10 then "0" ++ toString n else toString n

/-- One `M:SS` component of the time label:
`f"{int(t // 60)}:{int(t % 60):02d}"`. -/
def pyMinSec (t : ℚ) : String :=
  toString (pyInt (pyFloorDiv t 60)) ++ ":" ++ pyPad2 (pyInt (pyMod t 60))

/-- The time label `f"{...current...} / {...total...}"` built by the monitor. -/
def pyFmtTime (cur total : ℚ) : String := pyMinSec cur ++ " / " ++ pyMinSec total

/-- The `current_file_label` HTML when a file is playing. -/
def fileLabelFor (name : String) : String := "<b>再生ファイル:</b> " ++ name

/-- The `current_file_label` HTML when nothing is playing. -/
def noneFileLabel : String := "<b>再生ファイル:</b> なし"

/-- The diagnostic printed by either variant's constructor when no WAV file
is found in the folder. -/
def emptyFolderMsg (folder : String) : String :=
  "フォルダ" ++ folder ++ "にWAVファイルが見つかりません"

namespace PygameResume

/-! Model of `src/pygame_resume_player.py` (`WAVPlayer`). -/

/-- Backend effects issued to pygame.mixer / the external player. -/
inductive Call where
  | musicStop
  | musicLoad (file : String)
  | musicSetVolume (v : ℚ)
  | musicPlay
  | externalPlay (file : String)
  deriving Repr, DecidableEq

/-- A pygame event as seen by `pygame.event.get()`: either the registered
`MUSIC_END` user event or anything else. -/
inductive PyEvent where
  | musicEnd
  | other
  deriving Repr, DecidableEq

/-- The mutable attributes of the `WAVPlayer` object (including the widget
fields acting as the display sink: label, progress bar, time label, dropdown,
autoplay checkbox). -/
structure PlayerState where
  file_list : List String
  durations : List (String × ℚ)
  current_index : Nat
  is_playing : Bool
  is_paused : Bool
  volume : ℚ
  current_file : String
  current_position : ℚ
  pause_time : Option ℚ
  autoplay : Bool
  file_label : String
  progress_bar : ℚ
  time_label : String
  dropdown : Nat
  deriving Repr, DecidableEq

/-- `_get_wav_durations` (lines 59-74): for every file, probe the WAV header;
on failure (probe returns `none`) record duration 0 and continue. -/
def getWavDurations (probe : String → Option ℚ) (files : List String) :
    List (String × ℚ) :=
  files.map (fun f => (f, (probe f).getD 0))

/-- The per-file diagnostic messages printed by `_get_wav_durations` for files
whose probe fails. -/
def getWavDurationMsgs (probe : String → Option ℚ) (files : List String) :
    List String :=
  files.filterMap (fun f =>
    match probe f with
    | some _ => none
    | none => some ("ファイル " ++ f ++ " の長さを取得できませんでした"))

/-- `_play_current(position=0)` (lines 320-344): when the current index is in
range, stop, load, set volume, play, update the state fields, and delegate to
the external player; otherwise do nothing. -/
def playCurrent (position : ℚ) (s : PlayerState) : PlayerState × List Call :=
  if s.current_index < s.file_list.length then
    let current_file := s.file_list.getD s.current_index ""
    ({ s with is_playing := true, is_paused := false,
              current_position := position,
              current_file := pyBasename current_file,
              file_label := fileLabelFor (pyBasename current_file) },
     [Call.musicStop, Call.musicLoad current_file, Call.musicSetVolume s.volume,
      Call.musicPlay, Call.externalPlay current_file])
  else (s, [])

/-- `_on_stop` (lines 281-293): only acts when `is_playing`. -/
def onStop (s : PlayerState) : PlayerState × List Call :=
  if s.is_playing = true then
    ({ s with is_playing := false, is_paused := false,
              current_position := 0, pause_time := none,
              file_label := noneFileLabel, progress_bar := 0,
              time_label := "0:00 / 0:00" },
     [Call.musicStop])
  else (s, [])

/-- `_on_next` (lines 305-313): advance with wraparound; replay if playing,
otherwise only sync the dropdown. -/
def onNext (s : PlayerState) : PlayerState × List Call :=
  if 0 < s.file_list.length then
    let s1 := { s with current_index := (s.current_index + 1) % s.file_list.length }
    if s1.is_playing = true then playCurrent 0 s1
    else ({ s1 with dropdown := s1.current_index }, [])
  else (s, [])

/-- `_on_prev` (lines 295-303): `(current_index - 1) % len(file_list)` with
Python semantics of `%` on possibly-negative operands, written over `Nat` as
`(i + n - 1) % n`. -/
def onPrev (s : PlayerState) : PlayerState × List Call :=
  if 0 < s.file_list.length then
    let s1 := { s with current_index :=
                  (s.current_index + s.file_list.length - 1) % s.file_list.length }
    if s1.is_playing = true then playCurrent 0 s1
    else ({ s1 with dropdown := s1.current_index }, [])
  else (s, [])

/-- `_on_play` (lines 259-271).  Fresh play when stopped; on resume from pause
the code adds the elapsed pause duration to `current_position` (guarded by the
Python truthiness test `if self.pause_time:`, false for `None` and for `0.0`)
and replays from that position. -/
def onPlay (now : ℚ) (s : PlayerState) : PlayerState × List Call :=
  if s.is_playing = false then playCurrent 0 s
  else if s.is_paused = true then
    let s1 := { s with is_paused := false }
    let s2 :=
      if s1.pause_time.getD 0 ≠ 0 then
        { s1 with current_position :=
                    s1.current_position + (now - s1.pause_time.getD 0) }
      else s1
    playCurrent s2.current_position s2
  else (s, [])

/-- `_on_pause` (lines 273-279): stop the mixer, mark paused, record the pause
instant. -/
def onPause (now : ℚ) (s : PlayerState) : PlayerState × List Call :=
  if s.is_playing = true ∧ s.is_paused = false then
    ({ s with is_paused := true, pause_time := some now }, [Call.musicStop])
  else (s, [])

/-- `_on_file_select` (lines 250-257) once the dropdown delivered a concrete
index `j`. -/
def onFileSelect (j : Nat) (s : PlayerState) : PlayerState × List Call :=
  if j ≠ s.current_index then
    let s1 := { s with current_index := j }
    if s1.is_playing = true then playCurrent 0 s1 else (s1, [])
  else (s, [])

/-- `_on_volume_change` (lines 315-318). -/
def onVolumeChange (v : ℚ) (s : PlayerState) : PlayerState × List Call :=
  ({ s with volume := v }, [Call.musicSetVolume v])

/-- The event-drain step of one monitor tick (lines 200-207): a `MUSIC_END`
event observed while playing and not paused triggers `_on_next` when the
autoplay checkbox is set and `_on_stop` otherwise. -/
def handleEvent (e : PyEvent) (acc : PlayerState × List Call) :
    PlayerState × List Call :=
  if e = PyEvent.musicEnd ∧ acc.1.is_playing = true ∧ acc.1.is_paused = false then
    if acc.1.autoplay = true then
      let r := onNext acc.1
      (r.1, acc.2 ++ r.2)
    else
      let r := onStop acc.1
      (r.1, acc.2 ++ r.2)
  else acc

/-- The position-update part of one monitor tick (lines 209-246).  `startTime`
is the loop-local `start_time` variable; the returned `Option ℚ` is its value
after the tick. -/
def monitorBody (now : ℚ) (startTime : Option ℚ) (s : PlayerState) :
    PlayerState × Option ℚ × List Call :=
  if s.is_playing = true ∧ s.is_paused = false then
    let st := startTime.getD (now - s.current_position)
    let current_time := now - st
    let s1 := { s with current_position := current_time }
    let current_file := s1.file_list.getD s1.current_index ""
    let total_duration := (s1.durations.lookup current_file).getD 0
    if 0 < total_duration then
      let progress := min 100 ((current_time / total_duration) * 100)
      let s2 := { s1 with progress_bar := progress,
                          time_label := pyFmtTime current_time total_duration }
      if total_duration ≤ current_time ∧ s2.autoplay = true then
        let r := onNext s2
        (r.1, none, r.2)
      else (s2, some st, [])
    else (s1, some st, [])
  else if s.is_paused = true then (s, startTime, [])
  else (s, none, [])

/-- One full monitor tick: drain the pygame event queue, then update the
position/display. -/
def monitorTick (now : ℚ) (events : List PyEvent) (startTime : Option ℚ)
    (s : PlayerState) : PlayerState × Option ℚ × List Call :=
  let a := events.foldl (fun acc e => handleEvent e acc) (s, [])
  let b := monitorBody now startTime a.1
  (b.1, b.2.1, a.2 ++ b.2.2)

/-- The fields `__init__` (lines 36-49) assigns when the file list is
non-empty. -/
def initialState (files : List String) (durs : List (String × ℚ)) : PlayerState :=
  { file_list := files, durations := durs, current_index := 0,
    is_playing := false, is_paused := false, volume := 7/10,
    current_file := "", current_position := 0, pause_time := none,
    autoplay := true, file_label := noneFileLabel, progress_bar := 0,
    time_label := "0:00 / 0:00", dropdown := 0 }

/-- The Python object: `folder_path` and `file_list` are always assigned;
the rest of the attributes exist only when `__init__` ran past the empty-list
early return.  `degraded_volume` records a `self.volume` attribute created by
`_on_volume_change` on a degraded object (the handler writes the attribute
unconditionally). -/
structure PyObj where
  folder_path : String
  file_list : List String
  attrs : Option PlayerState
  degraded_volume : Option ℚ
  deriving Repr, DecidableEq

/-- A Python exception escaping a handler. -/
inductive PyExn where
  | attributeError (name : String)
  deriving Repr, DecidableEq

/-- `__init__` (lines 12-57) given the discovered (sorted) file list and the
metadata probe; returns the object and the printed diagnostics.  Note that
`pygame.init()` and `pygame.mixer.init()` (lines 25-26) run before the file
scan, so the mixer is initialized even on the empty-folder early return. -/
def init (folder : String) (files : List String) (probe : String → Option ℚ) :
    PyObj × List String :=
  if files.isEmpty then
    ({ folder_path := folder, file_list := files, attrs := none,
       degraded_volume := none },
     [emptyFolderMsg folder])
  else
    ({ folder_path := folder, file_list := files,
       attrs := some (initialState files (getWavDurations probe files)),
       degraded_volume := none },
     getWavDurationMsgs probe files)

/-- `_on_play` invoked on the object: the first statement reads
`self.is_playing`, which raises `AttributeError` on a degraded object. -/
def objOnPlay (now : ℚ) (o : PyObj) : Except PyExn (PyObj × List Call) :=
  match o.attrs with
  | none => .error (.attributeError "is_playing")
  | some s =>
      let r := onPlay now s
      .ok ({ o with attrs := some r.1 }, r.2)

/-- `_on_pause` invoked on the object. -/
def objOnPause (now : ℚ) (o : PyObj) : Except PyExn (PyObj × List Call) :=
  match o.attrs with
  | none => .error (.attributeError "is_playing")
  | some s =>
      let r := onPause now s
      .ok ({ o with attrs := some r.1 }, r.2)

/-- `_on_stop` invoked on the object. -/
def objOnStop (o : PyObj) : Except PyExn (PyObj × List Call) :=
  match o.attrs with
  | none => .error (.attributeError "is_playing")
  | some s =>
      let r := onStop s
      .ok ({ o with attrs := some r.1 }, r.2)

/-- `_on_next` invoked on the object: the guard `len(self.file_list) > 0`
only reads `file_list`, which always exists, so the degraded object is a
no-op. -/
def objOnNext (o : PyObj) : Except PyExn (PyObj × List Call) :=
  if 0 < o.file_list.length then
    match o.attrs with
    | none => .error (.attributeError "current_index")
    | some s =>
        let r := onNext s
        .ok ({ o with attrs := some r.1 }, r.2)
  else .ok (o, [])

/-- `_on_prev` invoked on the object. -/
def objOnPrev (o : PyObj) : Except PyExn (PyObj × List Call) :=
  if 0 < o.file_list.length then
    match o.attrs with
    | none => .error (.attributeError "current_index")
    | some s =>
        let r := onPrev s
        .ok ({ o with attrs := some r.1 }, r.2)
  else .ok (o, [])

/-- `_on_file_select` invoked on the object: with a concrete new value the
handler compares it against `self.current_index`, which raises on a degraded
object; with `None` it does nothing. -/
def objOnFileSelect (new : Option Nat) (o : PyObj) :
    Except PyExn (PyObj × List Call) :=
  match new with
  | none => .ok (o, [])
  | some j =>
      match o.attrs with
      | none => .error (.attributeError "current_index")
      | some s =>
          let r := onFileSelect j s
          .ok ({ o with attrs := some r.1 }, r.2)

/-- `_on_volume_change` invoked on the object: the handler first writes
`self.volume` (creating the attribute on a degraded object) and then calls
`pygame.mixer.music.set_volume` on the mixer, which this variant initialized
before the file scan — so no exception is raised even in the degraded
state. -/
def objOnVolumeChange (vol : ℚ) (o : PyObj) : Except PyExn (PyObj × List Call) :=
  match o.attrs with
  | none =>
      .ok ({ o with degraded_volume := some vol }, [Call.musicSetVolume vol])
  | some s =>
      let r := onVolumeChange vol s
      .ok ({ o with attrs := some r.1 }, r.2)

/-- `_play_current` with a fallible backend: pygame's variant has no
try/except, so a failing `pygame.mixer.music.load` propagates the exception
to the caller after the initial `stop()` call, with every state field still
unchanged. -/
def playCurrentTry (loadOk : Bool) (position : ℚ) (s : PlayerState) :
    Except (PlayerState × List Call) (PlayerState × List Call) :=
  if s.current_index < s.file_list.length then
    if loadOk then .ok (playCurrent position s)
    else .error (s, [Call.musicStop])
  else .ok (s, [])

/-- Invariant of the claim C8: whenever the lifecycle phase is Playing or
Paused, the current index is a valid playlist index. -/
def Inv (s : PlayerState) : Prop :=
  s.is_playing = true ∨ s.is_paused = true → s.current_index < s.file_list.length

instance (s : PlayerState) : Decidable (Inv s) := by
  unfold Inv
  infer_instance

end PygameResume

namespace WavPy

/-! Model of `src/wav_player.py` (`WAVPlayer`). -/

/-- Backend effects issued to pygame.mixer by this variant. -/
inductive WCall where
  | musicStop
  | musicPause
  | musicUnpause
  | musicSetVolume (v : ℚ)
  deriving Repr, DecidableEq

/-- The mutable attributes of the object (this variant has no autoplay
checkbox, no time label and no position bookkeeping). -/
structure WState where
  file_list : List String
  current_index : Nat
  is_playing : Bool
  is_paused : Bool
  volume : ℚ
  current_file : String
  file_label : String
  progress_bar : ℚ
  dropdown : Nat
  deriving Repr, DecidableEq

/-- `_play_current` (lines 213-236): load and play inside a try/except; on a
backend failure (`loadOk = false`) the except clause prints one diagnostic and
returns with every state field unchanged — the exception never reaches the
caller and the lifecycle flags are not reset. -/
def playCurrent (loadOk : Bool) (s : WState) : WState × List String :=
  if s.current_index < s.file_list.length then
    let current_file := s.file_list.getD s.current_index ""
    if loadOk then
      ({ s with is_playing := true, is_paused := false,
                current_file := pyBasename current_file,
                file_label := fileLabelFor (pyBasename current_file),
                progress_bar := 0, dropdown := s.current_index }, [])
    else
      (s, ["ファイルの再生中にエラーが発生しました: MediaLoadError"])
  else (s, [])

/-- `_on_stop` (lines 181-188). -/
def onStop (s : WState) : WState × List WCall :=
  if s.is_playing = true then
    ({ s with is_playing := false, is_paused := false,
              file_label := noneFileLabel, progress_bar := 0 },
     [WCall.musicStop])
  else (s, [])

/-- `_on_next` (lines 199-206), with the backend load outcome made explicit. -/
def onNext (loadOk : Bool) (s : WState) : WState × List String :=
  if 0 < s.file_list.length then
    let s1 := { s with current_index := (s.current_index + 1) % s.file_list.length }
    if s1.is_playing = true then playCurrent loadOk s1
    else ({ s1 with dropdown := s1.current_index }, [])
  else (s, [])

/-- `_on_prev` (lines 190-197). -/
def onPrev (loadOk : Bool) (s : WState) : WState × List String :=
  if 0 < s.file_list.length then
    let s1 := { s with current_index :=
                  (s.current_index + s.file_list.length - 1) % s.file_list.length }
    if s1.is_playing = true then playCurrent loadOk s1
    else ({ s1 with dropdown := s1.current_index }, [])
  else (s, [])

/-- The MUSIC_END handling of `_monitor_playback` (lines 134-139): on an
end-of-track event, `_on_next` runs whenever playing and not paused — this
variant has no autoplay checkbox, so a track end always advances. -/
def handleMusicEnd (loadOk : Bool) (s : WState) : WState × List String :=
  if s.is_playing = true ∧ s.is_paused = false then onNext loadOk s
  else (s, [])

/-- The wav_player object: `folder_path` and `file_list` are always assigned;
the transport attributes and the pygame mixer initialization (lines 28-42)
happen only when the file list is non-empty. -/
structure WObj where
  folder_path : String
  file_list : List String
  attrs : Option WState
  mixer_ready : Bool
  deriving Repr, DecidableEq

/-- A Python exception escaping a wav_player handler. -/
inductive WExn where
  | attributeError (name : String)
  | pygameError
  deriving Repr, DecidableEq

/-- wav_player `__init__` (lines 12-49) given the discovered file list: on an
empty folder it prints the diagnostic and returns before
`pygame.mixer.init()` (line 36) ever runs, so the mixer stays
uninitialized. -/
def init (folder : String) (files : List String) : WObj × List String :=
  if files.isEmpty then
    ({ folder_path := folder, file_list := files, attrs := none,
       mixer_ready := false },
     [emptyFolderMsg folder])
  else
    ({ folder_path := folder, file_list := files,
       attrs := some { file_list := files, current_index := 0,
                       is_playing := false, is_paused := false,
                       volume := 7/10, current_file := "",
                       file_label := noneFileLabel, progress_bar := 0,
                       dropdown := 0 },
       mixer_ready := true },
     [])

/-- `_on_volume_change` (lines 208-211) invoked on the object: it writes
`self.volume` and then calls `pygame.mixer.music.set_volume`; on a degraded
object the mixer was never initialized, so that call raises `pygame.error`
(the preceding attribute write is not observable to the caller because the
exception escapes). -/
def wavObjOnVolumeChange (vol : ℚ) (o : WObj) :
    Except WExn (WObj × List WCall) :=
  if o.mixer_ready = true then
    match o.attrs with
    | none => .ok (o, [WCall.musicSetVolume vol])
    | some s =>
        .ok ({ o with attrs := some { s with volume := vol } },
             [WCall.musicSetVolume vol])
  else .error WExn.pygameError

end WavPy

namespace VlcPy

/-! Model of `src/vlc_wav_player.py` (`WAVPlayer`). -/

/-- Backend effects issued to the VLC player / list player. -/
inductive VCall where
  | playerStop
  | playItemAtIndex (i : Nat)
  | setPause (b : Bool)
  | audioSetVolume (v : ℤ)
  deriving Repr, DecidableEq

/-- The mutable attributes of the object (VLC volume is an integer 0-100). -/
structure VState where
  file_list : List String
  current_index : Nat
  is_playing : Bool
  is_paused : Bool
  volume : ℤ
  current_file : String
  autoplay : Bool
  file_label : String
  progress_bar : ℚ
  time_label : String
  dropdown : Nat
  deriving Repr, DecidableEq

/-- `_on_stop` (lines 267-277). -/
def onStop (s : VState) : VState × List VCall :=
  if s.is_playing = true then
    ({ s with is_playing := false, is_paused := false,
              file_label := noneFileLabel, progress_bar := 0,
              time_label := "0:00 / 0:00" },
     [VCall.playerStop])
  else (s, [])

/-- `_on_play` (lines 245-259): fresh play via
`list_player.play_item_at_index(current_index)`, or resume via
`player.set_pause(False)`. -/
def onPlay (s : VState) : VState × List VCall :=
  if s.is_playing = false then
    let f := pyBasename (s.file_list.getD s.current_index "")
    ({ s with is_playing := true, is_paused := false,
              current_file := f, file_label := fileLabelFor f },
     [VCall.playItemAtIndex s.current_index])
  else if s.is_paused = true then
    ({ s with is_paused := false }, [VCall.setPause false])
  else (s, [])

/-- `_on_next` (lines 297-313). -/
def onNext (s : VState) : VState × List VCall :=
  if 0 < s.file_list.length then
    let next_index := (s.current_index + 1) % s.file_list.length
    if s.is_playing = true then
      let f := pyBasename (s.file_list.getD next_index "")
      ({ s with current_index := next_index,
                current_file := f, file_label := fileLabelFor f },
       [VCall.playItemAtIndex next_index])
    else
      ({ s with current_index := next_index, dropdown := next_index }, [])
  else (s, [])

/-- `on_end_reached` (lines 73-78): the VLC end-of-track callback spawns
`_on_next` when autoplay is set and otherwise does nothing at all (in
particular it never stops the controller). -/
def onEndReached (s : VState) : VState × List VCall :=
  if s.autoplay = true then onNext s else (s, [])

end VlcPy

/-! Concrete states used by counterexamples and witnesses. -/

namespace PygameResume

/-- A one-track playlist (duration 100 s), playing, elapsed 4 s; the monitor's
wall-clock anchor for this run is `start_time = 0`. -/
def sC1 : PlayerState :=
  { initialState ["outputs/a.wav"] [("outputs/a.wav", 100)] with
      is_playing := true, current_file := "a.wav",
      file_label := fileLabelFor "a.wav", current_position := 4 }

/-- Two tracks (3 s and 5 s), playing track 0, autoplay disabled, elapsed
3 s (the first track has ended). -/
def sC2 : PlayerState :=
  { initialState ["outputs/a.wav", "outputs/b.wav"]
      [("outputs/a.wav", 3), ("outputs/b.wav", 5)] with
      is_playing := true, autoplay := false, current_position := 3,
      current_file := "a.wav", file_label := fileLabelFor "a.wav" }

/-- Same situation as `sC2` but with autoplay enabled. -/
def sC2a : PlayerState := { sC2 with autoplay := true }

/-- A stopped three-track playlist positioned at index 1. -/
def sC4 : PlayerState :=
  { initialState ["outputs/a.wav", "outputs/b.wav", "outputs/c.wav"]
      [("outputs/a.wav", 3), ("outputs/b.wav", 5), ("outputs/c.wav", 7)] with
      current_index := 1, dropdown := 1 }

/-- A playing one-track playlist with elapsed 5 s over a 2 s track. -/
def sC5 : PlayerState :=
  { initialState ["outputs/a.wav"] [("outputs/a.wav", 2)] with
      is_playing := true, current_position := 5 }

/-- A playing two-track playlist, used where a load failure is injected. -/
def pC6 : PlayerState :=
  { initialState ["outputs/a.wav", "outputs/b.wav"]
      [("outputs/a.wav", 3), ("outputs/b.wav", 5)] with
      is_playing := true, current_file := "a.wav",
      file_label := fileLabelFor "a.wav" }

/-- A freshly constructed (stopped) two-track playlist. -/
def sC7 : PlayerState :=
  { initialState ["outputs/a.wav", "outputs/b.wav"]
      [("outputs/a.wav", 3), ("outputs/b.wav", 5)] with
      progress_bar := 0 }

/-- A playing two-track playlist at index 0. -/
def sC8 : PlayerState :=
  { initialState ["outputs/a.wav", "outputs/b.wav"]
      [("outputs/a.wav", 3), ("outputs/b.wav", 5)] with is_playing := true }

/-- A playing (paused) two-track playlist at index 1, elapsed 2 s. -/
def sC10 : PlayerState :=
  { initialState ["outputs/x.wav", "outputs/y.wav"]
      [("outputs/x.wav", 3), ("outputs/y.wav", 5)] with
      is_playing := true, current_index := 1, dropdown := 1,
      current_position := 2, progress_bar := 40,
      current_file := "y.wav", file_label := fileLabelFor "y.wav" }

/-- A probe that succeeds on the first file and fails on any other. -/
def probeC9 : String → Option ℚ :=
  fun f => if f = "outputs/a.wav" then some 3 else none

/-- A probe that always fails. -/
def probeNone : String → Option ℚ := fun _ => none

end PygameResume

namespace WavPy

/-- A playing two-track playlist (wav_player variant). -/
def wC6 : WState :=
  { file_list := ["outputs/a.wav", "outputs/b.wav"], current_index := 0,
    is_playing := true, is_paused := false, volume := 7/10,
    current_file := "a.wav", file_label := fileLabelFor "a.wav",
    progress_bar := 50, dropdown := 0 }

/-- A stopped two-track playlist (wav_player variant). -/
def wC7 : WState := { wC6 with is_playing := false, current_file := "",
                               file_label := noneFileLabel, progress_bar := 0 }

/-- A playing two-track playlist at index 1 (wav_player variant). -/
def wC10 : WState := { wC6 with current_index := 1, dropdown := 1 }

/-- A playing two-track playlist (wav_player variant) used for the
TrackEnded claim. -/
def wC2 : WState := { wC6 with progress_bar := 30 }

end WavPy

namespace VlcPy

/-- A stopped two-track playlist (vlc variant). -/
def vC7 : VState :=
  { file_list := ["outputs/a.wav", "outputs/b.wav"], current_index := 0,
    is_playing := false, is_paused := false, volume := 70,
    current_file := "", autoplay := true, file_label := noneFileLabel,
    progress_bar := 0, time_label := "0:00 / 0:00", dropdown := 0 }

/-- A playing two-track playlist at index 1 (vlc variant). -/
def vC10 : VState :=
  { vC7 with is_playing := true, current_index := 1, dropdown := 1,
             current_file := "b.wav", file_label := fileLabelFor "b.wav",
             progress_bar := 40 }

/-- A playing two-track playlist with autoplay disabled (vlc variant). -/
def vC2 : VState :=
  { vC7 with is_playing := true, autoplay := false,
             current_file := "a.wav", file_label := fileLabelFor "a.wav" }

/-- The same vlc state with autoplay enabled. -/
def vC2a : VState := { vC2 with autoplay := true }

end VlcPy

/-! Helper lemmas about the pygame_resume_player handlers. -/

namespace PygameResume

theorem playCurrent_fst_current_index (p : ℚ) (s : PlayerState) :
    ((playCurrent p s).1).current_index = s.current_index := by
  unfold playCurrent
  by_cases h : s.current_index < s.file_list.length
  · rw [if_pos h]
  · rw [if_neg h]

theorem playCurrent_fst_file_list (p : ℚ) (s : PlayerState) :
    ((playCurrent p s).1).file_list = s.file_list := by
  unfold playCurrent
  by_cases h : s.current_index < s.file_list.length
  · rw [if_pos h]
  · rw [if_neg h]

theorem playCurrent_fst_progress_bar (p : ℚ) (s : PlayerState) :
    ((playCurrent p s).1).progress_bar = s.progress_bar := by
  unfold playCurrent
  by_cases h : s.current_index < s.file_list.length
  · rw [if_pos h]
  · rw [if_neg h]

theorem playCurrent_inv (p : ℚ) (s : PlayerState) (h : Inv s) :
    Inv ((playCurrent p s).1) := by
  unfold playCurrent
  by_cases hlt : s.current_index < s.file_list.length
  · rw [if_pos hlt]
    unfold Inv
    intro _
    exact hlt
  · rw [if_neg hlt]
    exact h

theorem onNext_fst_file_list (s : PlayerState) :
    ((onNext s).1).file_list = s.file_list := by
  unfold onNext
  by_cases hN : 0 < s.file_list.length
  · rw [if_pos hN]
    by_cases hp : s.is_playing = true
    · rw [if_pos hp, playCurrent_fst_file_list]
    · rw [if_neg hp]
  · rw [if_neg hN]

theorem onNext_fst_current_index (s : PlayerState) (hN : 0 < s.file_list.length) :
    ((onNext s).1).current_index = (s.current_index + 1) % s.file_list.length := by
  unfold onNext
  rw [if_pos hN]
  by_cases hp : s.is_playing = true
  · rw [if_pos hp, playCurrent_fst_current_index]
  · rw [if_neg hp]

theorem onNext_fst_progress_bar (s : PlayerState) :
    ((onNext s).1).progress_bar = s.progress_bar := by
  unfold onNext
  by_cases hN : 0 < s.file_list.length
  · rw [if_pos hN]
    by_cases hp : s.is_playing = true
    · rw [if_pos hp, playCurrent_fst_progress_bar]
    · rw [if_neg hp]
  · rw [if_neg hN]

theorem onPrev_fst_current_index (s : PlayerState) (hN : 0 < s.file_list.length) :
    ((onPrev s).1).current_index
      = (s.current_index + s.file_list.length - 1) % s.file_list.length := by
  unfold onPrev
  rw [if_pos hN]
  by_cases hp : s.is_playing = true
  · rw [if_pos hp, playCurrent_fst_current_index]
  · rw [if_neg hp]

theorem onNext_inv (s : PlayerState) (h : Inv s) : Inv ((onNext s).1) := by
  unfold onNext
  by_cases hN : 0 < s.file_list.length
  · rw [if_pos hN]
    have h1 : Inv { s with current_index := (s.current_index + 1) % s.file_list.length } := by
      unfold Inv
      intro _
      exact Nat.mod_lt _ hN
    by_cases hp : s.is_playing = true
    · rw [if_pos hp]
      exact playCurrent_inv 0 _ h1
    · rw [if_neg hp]
      exact h1
  · rw [if_neg hN]
    exact h

theorem onPrev_inv (s : PlayerState) (h : Inv s) : Inv ((onPrev s).1) := by
  unfold onPrev
  by_cases hN : 0 < s.file_list.length
  · rw [if_pos hN]
    have h1 : Inv { s with current_index :=
        (s.current_index + s.file_list.length - 1) % s.file_list.length } := by
      unfold Inv
      intro _
      exact Nat.mod_lt _ hN
    by_cases hp : s.is_playing = true
    · rw [if_pos hp]
      exact playCurrent_inv 0 _ h1
    · rw [if_neg hp]
      exact h1
  · rw [if_neg hN]
    exact h

theorem onPlay_inv (now : ℚ) (s : PlayerState) (h : Inv s) :
    Inv ((onPlay now s).1) := by
  unfold onPlay
  by_cases h1 : s.is_playing = false
  · rw [if_pos h1]
    exact playCurrent_inv 0 s h
  · rw [if_neg h1]
    by_cases h2 : s.is_paused = true
    · rw [if_pos h2]
      have hidx : s.current_index < s.file_list.length := h (Or.inr h2)
      dsimp only
      by_cases h3 : (Option.getD s.pause_time 0) ≠ 0
      · rw [if_pos h3]
        apply playCurrent_inv
        unfold Inv
        intro _
        exact hidx
      · rw [if_neg h3]
        apply playCurrent_inv
        unfold Inv
        intro _
        exact hidx
    · rw [if_neg h2]
      exact h

theorem onPause_inv (now : ℚ) (s : PlayerState) (h : Inv s) :
    Inv ((onPause now s).1) := by
  unfold onPause
  by_cases h1 : s.is_playing = true ∧ s.is_paused = false
  · rw [if_pos h1]
    unfold Inv
    intro _
    exact h (Or.inl h1.1)
  · rw [if_neg h1]
    exact h

theorem onStop_inv (s : PlayerState) (h : Inv s) : Inv ((onStop s).1) := by
  unfold onStop
  by_cases h1 : s.is_playing = true
  · rw [if_pos h1]
    unfold Inv
    intro hx
    rcases hx with hx | hx <;> exact absurd hx (by simp)
  · rw [if_neg h1]
    exact h

theorem onFileSelect_inv (j : Nat) (s : PlayerState)
    (hj : j < s.file_list.length) (h : Inv s) : Inv ((onFileSelect j s).1) := by
  unfold onFileSelect
  by_cases h1 : j ≠ s.current_index
  · rw [if_pos h1]
    have h2 : Inv { s with current_index := j } := by
      unfold Inv
      intro _
      exact hj
    by_cases hp : s.is_playing = true
    · rw [if_pos hp]
      exact playCurrent_inv 0 _ h2
    · rw [if_neg hp]
      exact h2
  · rw [if_neg h1]
    exact h

/-- Iterating `_on_next` k times leaves the playlist unchanged and moves the
index to `(i + k) % N`. -/
theorem onNext_iterate (s : PlayerState) (hN : 0 < s.file_list.length)
    (hi : s.current_index < s.file_list.length) (k : Nat) :
    ((fun t => (onNext t).1)^[k] s).file_list = s.file_list ∧
      ((fun t => (onNext t).1)^[k] s).current_index
        = (s.current_index + k) % s.file_list.length := by
  induction k with
  | zero =>
      exact ⟨rfl, (Nat.mod_eq_of_lt hi).symm⟩
  | succ k ih =>
      rw [Function.iterate_succ_apply']
      obtain ⟨hfl, hidx⟩ := ih
      constructor
      · rw [onNext_fst_file_list, hfl]
      · rw [onNext_fst_current_index _ (by rw [hfl]; exact hN), hfl, hidx,
            Nat.mod_add_mod, Nat.add_assoc]

end PygameResume

namespace WavPy

theorem wavOnNext_fst_current_index (loadOk : Bool) (s : WState)
    (hN : 0 < s.file_list.length) :
    ((onNext loadOk s).1).current_index
      = (s.current_index + 1) % s.file_list.length := by
  unfold onNext playCurrent
  rw [if_pos hN]
  dsimp only
  by_cases hp : s.is_playing = true
  · rw [if_pos hp, if_pos (Nat.mod_lt _ hN)]
    by_cases hl : loadOk = true
    · rw [if_pos hl]
    · rw [if_neg hl]
  · rw [if_neg hp]

end WavPy

namespace VlcPy

theorem vlcOnNext_fst_current_index (s : VState)
    (hN : 0 < s.file_list.length) :
    ((onNext s).1).current_index
      = (s.current_index + 1) % s.file_list.length := by
  unfold onNext
  rw [if_pos hN]
  dsimp only
  by_cases hp : s.is_playing = true
  · rw [if_pos hp]
  · rw [if_neg hp]

end VlcPy

/-! Claim theorems. -/

/-- C4: for every playlist of length N ≥ 1 and every valid start index,
applying next() N times returns the current index to the start index; next
from the last index yields index 0 and previous from index 0 yields index
N-1 (modulo wraparound, not clamping). -/
theorem c4_next_wraparound (s : PygameResume.PlayerState)
    (hN : 0 < s.file_list.length) (hi : s.current_index < s.file_list.length) :
    ((fun t => (PygameResume.onNext t).1)^[s.file_list.length] s).current_index
        = s.current_index ∧
    (s.current_index = s.file_list.length - 1 →
        ((PygameResume.onNext s).1).current_index = 0) ∧
    (s.current_index = 0 →
        ((PygameResume.onPrev s).1).current_index = s.file_list.length - 1) := by
  refine ⟨?_, ?_, ?_⟩
  · rw [(PygameResume.onNext_iterate s hN hi s.file_list.length).2,
        Nat.add_mod_right, Nat.mod_eq_of_lt hi]
  · intro hlast
    rw [PygameResume.onNext_fst_current_index s hN, hlast,
        Nat.sub_add_cancel hN, Nat.mod_self]
  · intro h0
    rw [PygameResume.onPrev_fst_current_index s hN, h0, Nat.zero_add,
        Nat.mod_eq_of_lt (by omega)]

/-- Witness for C4: three tracks, starting at index 1, three next() calls
return to index 1. -/
theorem c4_next_wraparound_witness :
    ((fun t => (PygameResume.onNext t).1)^[3] PygameResume.sC4).current_index
      = 1 :=
  (c4_next_wraparound PygameResume.sC4 (by decide) (by decide)).1

/-- C7: issuing stop() while the controller is already Stopped is a no-op in
all three variants: the state, including every display field, is unchanged and
no backend call is made. -/
theorem c7_stop_while_stopped_noop (s : PygameResume.PlayerState)
    (w : WavPy.WState) (v : VlcPy.VState)
    (hs : s.is_playing = false) (hw : w.is_playing = false)
    (hv : v.is_playing = false) :
    PygameResume.onStop s = (s, []) ∧ WavPy.onStop w = (w, []) ∧
      VlcPy.onStop v = (v, []) := by
  unfold PygameResume.onStop WavPy.onStop VlcPy.onStop
  rw [if_neg (by simp [hs]), if_neg (by simp [hw]), if_neg (by simp [hv])]
  exact ⟨rfl, rfl, rfl⟩

/-- Witness for C7 at concrete stopped states of the three variants. -/
theorem c7_stop_while_stopped_noop_witness :
    PygameResume.onStop PygameResume.sC7 = (PygameResume.sC7, []) ∧
    WavPy.onStop WavPy.wC7 = (WavPy.wC7, []) ∧
    VlcPy.onStop VlcPy.vC7 = (VlcPy.vC7, []) :=
  c7_stop_while_stopped_noop _ _ _ (by decide) (by decide) (by decide)

/-- C8: the index-validity invariant (Playing or Paused implies the current
index is a valid playlist index) is preserved by every command handler:
play, pause, stop, next, previous and select (with the selected index drawn
from the dropdown options, hence in range). -/
theorem c8_index_invariant (s : PygameResume.PlayerState) (now : ℚ) (j : Nat)
    (_hN : 0 < s.file_list.length) (hinv : PygameResume.Inv s)
    (hj : j < s.file_list.length) :
    PygameResume.Inv ((PygameResume.onPlay now s).1) ∧
    PygameResume.Inv ((PygameResume.onPause now s).1) ∧
    PygameResume.Inv ((PygameResume.onStop s).1) ∧
    PygameResume.Inv ((PygameResume.onNext s).1) ∧
    PygameResume.Inv ((PygameResume.onPrev s).1) ∧
    PygameResume.Inv ((PygameResume.onFileSelect j s).1) :=
  ⟨PygameResume.onPlay_inv now s hinv, PygameResume.onPause_inv now s hinv,
   PygameResume.onStop_inv s hinv, PygameResume.onNext_inv s hinv,
   PygameResume.onPrev_inv s hinv, PygameResume.onFileSelect_inv j s hj hinv⟩

/-- Witness for C8 at a concrete playing two-track state. -/
theorem c8_index_invariant_witness :
    PygameResume.Inv ((PygameResume.onPlay 0 PygameResume.sC8).1) :=
  (c8_index_invariant PygameResume.sC8 0 1 (by decide) (by decide)
    (by decide)).1

/-- C9: duration indexing is total: the mapping has exactly one entry per
playlist file, every file is present, and a file whose probe fails is
recorded with duration 0 — indexing never aborts. -/
theorem c9_duration_indexing_total (probe : String → Option ℚ)
    (files : List String) :
    (PygameResume.getWavDurations probe files).length = files.length ∧
    (∀ f ∈ files,
       (f, (probe f).getD 0) ∈ PygameResume.getWavDurations probe files) ∧
    (∀ f ∈ files, probe f = none →
       (f, (0 : ℚ)) ∈ PygameResume.getWavDurations probe files) := by
  unfold PygameResume.getWavDurations
  refine ⟨List.length_map _ _, fun f hf => List.mem_map_of_mem _ hf,
          fun f hf hp => ?_⟩
  have h2 := List.mem_map_of_mem (fun g => (g, (probe g).getD 0)) hf
  simpa [hp] using h2

/-- Witness for C9: a probe failing on the second file still yields an entry
with duration 0 for it. -/
theorem c9_duration_indexing_total_witness :
    ("outputs/b.wav", (0 : ℚ)) ∈
      PygameResume.getWavDurations PygameResume.probeC9
        ["outputs/a.wav", "outputs/b.wav"] :=
  (c9_duration_indexing_total PygameResume.probeC9 _).2.2 "outputs/b.wav"
    (by simp) (by simp [PygameResume.probeC9])

/-- C10: stop() while Playing or Paused clears position and display fields but
leaves the current track index unchanged, and a subsequent play() starts that
same track (shown for all three variants; for pygame the full reload call
sequence names the same file). -/
theorem c10_stop_clears_position_keeps_index (s : PygameResume.PlayerState)
    (now : ℚ) (w : WavPy.WState) (v : VlcPy.VState)
    (hplay : s.is_playing = true)
    (hidx : s.current_index < s.file_list.length) :
    ((PygameResume.onStop s).1).current_index = s.current_index ∧
    ((PygameResume.onStop s).1).current_position = 0 ∧
    ((PygameResume.onStop s).1).pause_time = none ∧
    ((PygameResume.onStop s).1).file_label = noneFileLabel ∧
    ((PygameResume.onStop s).1).progress_bar = 0 ∧
    ((PygameResume.onStop s).1).time_label = "0:00 / 0:00" ∧
    ((PygameResume.onStop s).1).is_playing = false ∧
    ((PygameResume.onStop s).1).is_paused = false ∧
    ((PygameResume.onPlay now (PygameResume.onStop s).1).1).current_index
        = s.current_index ∧
    ((PygameResume.onPlay now (PygameResume.onStop s).1).1).is_playing = true ∧
    (PygameResume.onPlay now (PygameResume.onStop s).1).2 =
      [PygameResume.Call.musicStop,
       PygameResume.Call.musicLoad (s.file_list.getD s.current_index ""),
       PygameResume.Call.musicSetVolume s.volume,
       PygameResume.Call.musicPlay,
       PygameResume.Call.externalPlay (s.file_list.getD s.current_index "")] ∧
    ((WavPy.onStop w).1).current_index = w.current_index ∧
    ((VlcPy.onStop v).1).current_index = v.current_index ∧
    (VlcPy.onPlay (VlcPy.onStop v).1).2
        = [VlcPy.VCall.playItemAtIndex v.current_index] := by
  unfold PygameResume.onStop
  rw [if_pos hplay]
  refine ⟨rfl, rfl, rfl, rfl, rfl, rfl, rfl, rfl, ?_, ?_, ?_, ?_, ?_, ?_⟩
  · simp [PygameResume.onPlay, PygameResume.playCurrent, hidx]
  · simp [PygameResume.onPlay, PygameResume.playCurrent, hidx]
  · simp [PygameResume.onPlay, PygameResume.playCurrent, hidx]
  · by_cases hw1 : w.is_playing = true <;> simp [WavPy.onStop, hw1]
  · by_cases hv1 : v.is_playing = true <;> simp [VlcPy.onStop, hv1]
  · by_cases hv1 : v.is_playing = true <;>
      simp [VlcPy.onStop, VlcPy.onPlay, hv1]

/-- Witness for C10 at concrete playing states of the three variants. -/
theorem c10_stop_clears_position_keeps_index_witness :
    ((PygameResume.onStop PygameResume.sC10).1).current_index
      = PygameResume.sC10.current_index :=
  (c10_stop_clears_position_keeps_index PygameResume.sC10 0 WavPy.wC10
    VlcPy.vC10 (by decide) (by decide)).1

/-- C5: on any monitor tick, if the progress bar was in [0,100], the stored
position is non-negative and the wall-clock anchor is not in the future, then
the updated progress bar stays in [0,100]; and a total duration of 0 is
guarded: the bar is left untouched rather than divided by zero. -/
theorem c5_progress_in_range (now : ℚ) (st : Option ℚ)
    (s : PygameResume.PlayerState)
    (hbar0 : 0 ≤ s.progress_bar) (hbar1 : s.progress_bar ≤ 100)
    (hpos : 0 ≤ s.current_position)
    (hanchor : ∀ a, st = some a → a ≤ now) :
    (0 ≤ ((PygameResume.monitorBody now st s).1).progress_bar ∧
      ((PygameResume.monitorBody now st s).1).progress_bar ≤ 100) ∧
    ((s.durations.lookup (s.file_list.getD s.current_index "")).getD 0 = 0 →
      ((PygameResume.monitorBody now st s).1).progress_bar = s.progress_bar) := by
  have hct : 0 ≤ now - st.getD (now - s.current_position) := by
    cases st with
    | none => simpa using hpos
    | some a =>
        have ha := hanchor a rfl
        simp only [Option.getD]
        linarith
  unfold PygameResume.monitorBody
  by_cases hplay : s.is_playing = true ∧ s.is_paused = false
  · rw [if_pos hplay]
    dsimp only
    by_cases htot :
        0 < (s.durations.lookup (s.file_list.getD s.current_index "")).getD 0
    · rw [if_pos htot]
      have hp0 : 0 ≤ min 100 ((now - st.getD (now - s.current_position)) /
          ((s.durations.lookup (s.file_list.getD s.current_index "")).getD 0)
            * 100) := by
        refine le_min (by norm_num) ?_
        have := div_nonneg hct (le_of_lt htot)
        nlinarith
      have hp1 : min 100 ((now - st.getD (now - s.current_position)) /
          ((s.durations.lookup (s.file_list.getD s.current_index "")).getD 0)
            * 100) ≤ 100 := min_le_left _ _
      by_cases hadv :
          (s.durations.lookup (s.file_list.getD s.current_index "")).getD 0
              ≤ now - st.getD (now - s.current_position) ∧ s.autoplay = true
      · rw [if_pos hadv]
        refine ⟨?_, ?_⟩
        · rw [PygameResume.onNext_fst_progress_bar]
          exact ⟨hp0, hp1⟩
        · intro h0
          rw [h0] at htot
          exact absurd htot (lt_irrefl 0)
      · rw [if_neg hadv]
        refine ⟨⟨hp0, hp1⟩, ?_⟩
        intro h0
        rw [h0] at htot
        exact absurd htot (lt_irrefl 0)
    · rw [if_neg htot]
      exact ⟨⟨hbar0, hbar1⟩, fun _ => rfl⟩
  · rw [if_neg hplay]
    by_cases hpau : s.is_paused = true
    · rw [if_pos hpau]
      exact ⟨⟨hbar0, hbar1⟩, fun _ => rfl⟩
    · rw [if_neg hpau]
      exact ⟨⟨hbar0, hbar1⟩, fun _ => rfl⟩

/-- Witness for C5 at a one-track playlist whose track has already run past
its duration. -/
theorem c5_progress_in_range_witness :
    0 ≤ ((PygameResume.monitorBody 9 none PygameResume.sC5).1).progress_bar :=
  ((c5_progress_in_range 9 none PygameResume.sC5 (by decide) (by decide)
      (by decide) (fun a h => Option.noConfusion h)).1).1

/-- C2 counterexample: two of the cited TrackEnded paths with autoplay
disabled do not transition to Stopped.  In pygame_resume_player, a monitor
tick in which the elapsed time (3.1 s) has reached the current track's total
duration (3 s) leaves the controller Playing; in vlc_wav_player, the
end-of-track notification with autoplay disabled does nothing at all. -/
theorem c2_trackended_counterexample :
    (PygameResume.sC2.durations.lookup "outputs/a.wav").getD 0 = 3 ∧
    PygameResume.sC2.autoplay = false ∧
    ((PygameResume.monitorTick (31/10) [] (some 0)
        PygameResume.sC2).1).current_position = 31/10 ∧
    ((PygameResume.monitorTick (31/10) [] (some 0)
        PygameResume.sC2).1).is_playing = true ∧
    ((PygameResume.monitorTick (31/10) [] (some 0)
        PygameResume.sC2).1).is_paused = false ∧
    VlcPy.vC2.autoplay = false ∧
    VlcPy.vC2.is_playing = true ∧
    VlcPy.onEndReached VlcPy.vC2 = (VlcPy.vC2, []) := by
  norm_num [PygameResume.sC2, PygameResume.initialState, PygameResume.monitorTick,
    PygameResume.monitorBody, PygameResume.handleEvent, PygameResume.onNext,
    PygameResume.onStop, PygameResume.playCurrent, List.lookup,
    VlcPy.onEndReached, VlcPy.vC2, VlcPy.vC7]

/-- C2 amended: for every non-empty playlist, with autoplay enabled a
TrackEnded condition observed while Playing advances exactly one step with
wraparound in all three variants — pygame_resume_player's notification and
elapsed-time paths, wav_player's notification path (this variant has no
autoplay flag and always advances), and vlc_wav_player's end-of-track
notification.  With autoplay disabled, only pygame_resume_player's
notification path transitions to Stopped leaving the index unchanged;
pygame_resume_player's elapsed-time path leaves the controller Playing with
the index unchanged, and vlc_wav_player's notification does nothing at all. -/
theorem c2_trackended_amended (p : PygameResume.PlayerState)
    (w : WavPy.WState) (v : VlcPy.VState) (now a : ℚ)
    (hplay : p.is_playing = true) (hpause : p.is_paused = false)
    (hN : 0 < p.file_list.length)
    (hwplay : w.is_playing = true) (hwpause : w.is_paused = false)
    (hwN : 0 < w.file_list.length)
    (hvN : 0 < v.file_list.length) :
    (p.autoplay = true →
      ((PygameResume.handleEvent PygameResume.PyEvent.musicEnd
          (p, [])).1).current_index
        = (p.current_index + 1) % p.file_list.length) ∧
    (p.autoplay = false →
      ((PygameResume.handleEvent PygameResume.PyEvent.musicEnd
          (p, [])).1).is_playing = false ∧
      ((PygameResume.handleEvent PygameResume.PyEvent.musicEnd
          (p, [])).1).current_index = p.current_index) ∧
    (p.autoplay = true →
      0 < (p.durations.lookup (p.file_list.getD p.current_index "")).getD 0 →
      (p.durations.lookup (p.file_list.getD p.current_index "")).getD 0
          ≤ now - a →
      ((PygameResume.monitorBody now (some a) p).1).current_index
        = (p.current_index + 1) % p.file_list.length) ∧
    (p.autoplay = false →
      ((PygameResume.monitorBody now (some a) p).1).is_playing = true ∧
      ((PygameResume.monitorBody now (some a) p).1).current_index
        = p.current_index) ∧
    (∀ loadOk : Bool,
      ((WavPy.handleMusicEnd loadOk w).1).current_index
        = (w.current_index + 1) % w.file_list.length) ∧
    (v.autoplay = true →
      ((VlcPy.onEndReached v).1).current_index
        = (v.current_index + 1) % v.file_list.length) ∧
    (v.autoplay = false → VlcPy.onEndReached v = (v, [])) := by
  refine ⟨?_, ?_, ?_, ?_, ?_, ?_, ?_⟩
  · intro hau
    unfold PygameResume.handleEvent
    rw [if_pos ⟨rfl, hplay, hpause⟩]
    dsimp only
    rw [if_pos hau]
    exact PygameResume.onNext_fst_current_index p hN
  · intro hau
    unfold PygameResume.handleEvent
    rw [if_pos ⟨rfl, hplay, hpause⟩]
    dsimp only
    rw [if_neg (by simp [hau])]
    unfold PygameResume.onStop
    rw [if_pos hplay]
    exact ⟨rfl, rfl⟩
  · intro hau htot hend
    unfold PygameResume.monitorBody
    rw [if_pos ⟨hplay, hpause⟩]
    dsimp only
    rw [if_pos htot, if_pos ⟨hend, hau⟩]
    exact PygameResume.onNext_fst_current_index _ hN
  · intro hau
    unfold PygameResume.monitorBody
    rw [if_pos ⟨hplay, hpause⟩]
    dsimp only
    by_cases htot :
        0 < (p.durations.lookup (p.file_list.getD p.current_index "")).getD 0
    · rw [if_pos htot, if_neg (by simp [hau])]
      exact ⟨hplay, rfl⟩
    · rw [if_neg htot]
      exact ⟨hplay, rfl⟩
  · intro loadOk
    unfold WavPy.handleMusicEnd
    rw [if_pos ⟨hwplay, hwpause⟩]
    exact WavPy.wavOnNext_fst_current_index loadOk w hwN
  · intro hau
    unfold VlcPy.onEndReached
    rw [if_pos hau]
    exact VlcPy.vlcOnNext_fst_current_index v hvN
  · intro hau
    unfold VlcPy.onEndReached
    rw [if_neg (by simp [hau])]

/-- Witness for C2 (amended) at concrete autoplay-enabled states of the three
variants. -/
theorem c2_trackended_amended_witness :
    ((PygameResume.monitorBody 4 (some 0) PygameResume.sC2a).1).current_index
        = (PygameResume.sC2a.current_index + 1)
            % PygameResume.sC2a.file_list.length :=
  ((c2_trackended_amended PygameResume.sC2a WavPy.wC2 VlcPy.vC2a 4 0
      (by decide) (by decide) (by decide) (by decide) (by decide) (by decide)
      (by decide)).2.2.1) (by decide)
    (by norm_num [PygameResume.sC2a, PygameResume.sC2,
          PygameResume.initialState, List.lookup])
    (by norm_num [PygameResume.sC2a, PygameResume.sC2,
          PygameResume.initialState, List.lookup])

/-- C1: the code run on a concrete pause/resume trace.  The track is playing
with elapsed 4 s (wall-clock anchor `start_time = 0`), pause() is issued at
t = 4, play() (resume) at t = 14 (a 10 s pause), and the next monitor tick
occurs at t = 14.1.  `_on_play` adds the 10 s pause duration to
`current_position` (4 → 14) and the monitor keeps the stale anchor, so the
display shows elapsed 14.1 s instead of ≈ 4 s: the position jumps forward by
the pause duration, contradicting the claim (and the code's own comment that
the playback position is preserved). -/
theorem c1_resume_jumps_by_pause_duration :
    PygameResume.sC1.current_position = 4 ∧
    ((PygameResume.onPause 4 PygameResume.sC1).1).current_position = 4 ∧
    ((PygameResume.onPlay 14
        ((PygameResume.onPause 4 PygameResume.sC1).1)).1).current_position
      = 14 ∧
    ((PygameResume.monitorTick (141/10) [] (some 0)
        ((PygameResume.onPlay 14
          ((PygameResume.onPause 4 PygameResume.sC1).1)).1)).1).current_position
      = 141/10 := by
  norm_num [PygameResume.sC1, PygameResume.initialState, PygameResume.onPause,
    PygameResume.onPlay, PygameResume.playCurrent, PygameResume.monitorTick,
    PygameResume.monitorBody, List.lookup]

/-- C3 counterexample: constructing over an empty folder prints the diagnostic
exactly once, but a subsequent play() raises `AttributeError` (the early
return in `__init__` never initialized `is_playing`), contradicting the
claim that every transport command is a no-op from which no exception
escapes. -/
theorem c3_degraded_play_raises :
    ((PygameResume.init "outputs" [] PygameResume.probeNone).2).length = 1 ∧
    PygameResume.objOnPlay 0
        (PygameResume.init "outputs" [] PygameResume.probeNone).1
      = Except.error (PygameResume.PyExn.attributeError "is_playing") :=
  ⟨rfl, rfl⟩

/-- C3 amended: with an empty folder the constructors of both cited variants
succeed and surface the diagnostic exactly once; next(), previous() and an
empty selection are no-ops, and pygame_resume_player's set_volume does not
raise (its mixer is initialized before the file scan, so the handler writes
the attribute and issues the backend volume call); but play(), pause(),
stop() and select(index) read attributes the early-returning constructor
never initialized and raise `AttributeError`, and wav_player's set_volume
raises `pygame.error` because its mixer is initialized only after the early
return. -/
theorem c3_degraded_behavior (fp : String) (now vol : ℚ)
    (probe : String → Option ℚ) :
    (PygameResume.init fp [] probe).2 = [emptyFolderMsg fp] ∧
    PygameResume.objOnNext (PygameResume.init fp [] probe).1
      = Except.ok ((PygameResume.init fp [] probe).1, []) ∧
    PygameResume.objOnPrev (PygameResume.init fp [] probe).1
      = Except.ok ((PygameResume.init fp [] probe).1, []) ∧
    PygameResume.objOnFileSelect none (PygameResume.init fp [] probe).1
      = Except.ok ((PygameResume.init fp [] probe).1, []) ∧
    PygameResume.objOnVolumeChange vol (PygameResume.init fp [] probe).1
      = Except.ok
          ({ (PygameResume.init fp [] probe).1 with
               degraded_volume := some vol },
           [PygameResume.Call.musicSetVolume vol]) ∧
    PygameResume.objOnPlay now (PygameResume.init fp [] probe).1
      = Except.error (PygameResume.PyExn.attributeError "is_playing") ∧
    PygameResume.objOnPause now (PygameResume.init fp [] probe).1
      = Except.error (PygameResume.PyExn.attributeError "is_playing") ∧
    PygameResume.objOnStop (PygameResume.init fp [] probe).1
      = Except.error (PygameResume.PyExn.attributeError "is_playing") ∧
    PygameResume.objOnFileSelect (some 0) (PygameResume.init fp [] probe).1
      = Except.error (PygameResume.PyExn.attributeError "current_index") ∧
    (WavPy.init fp []).2 = [emptyFolderMsg fp] ∧
    WavPy.wavObjOnVolumeChange vol (WavPy.init fp []).1
      = Except.error WavPy.WExn.pygameError := by
  simp [PygameResume.init, PygameResume.objOnNext, PygameResume.objOnPrev,
        PygameResume.objOnFileSelect, PygameResume.objOnPlay,
        PygameResume.objOnPause, PygameResume.objOnStop,
        PygameResume.objOnVolumeChange, WavPy.init,
        WavPy.wavObjOnVolumeChange]

/-- C6 counterexample: while playing track 0 of two, next() with a failing
backend load leaves the controller Playing at the advanced index with one
printed diagnostic — the lifecycle phase does not revert to Stopped as the
claim states. -/
theorem c6_load_failure_not_stopped :
    ((WavPy.onNext false WavPy.wC6).1).is_playing = true ∧
    ((WavPy.onNext false WavPy.wC6).1).current_index = 1 ∧
    (WavPy.onNext false WavPy.wC6).2.length = 1 := by
  decide

/-- C6 amended: on a backend load failure, wav_player's `_play_current`
catches the exception, prints exactly one diagnostic and returns with the
state unchanged — the phase is not reverted to Stopped, no error reaches the
caller, and the monitor loop is unaffected; pygame_resume_player's
`_play_current` has no try/except, so the exception propagates to the caller
after the initial mixer stop, likewise leaving every state field unchanged. -/
theorem c6_load_failure_amended (s : WavPy.WState)
    (p : PygameResume.PlayerState)
    (hidx : s.current_index < s.file_list.length)
    (hpidx : p.current_index < p.file_list.length) :
    (WavPy.playCurrent false s).1 = s ∧
    (WavPy.playCurrent false s).2.length = 1 ∧
    PygameResume.playCurrentTry false 0 p
      = Except.error (p, [PygameResume.Call.musicStop]) := by
  unfold WavPy.playCurrent PygameResume.playCurrentTry
  rw [if_pos hidx, if_pos hpidx]
  exact ⟨rfl, rfl, rfl⟩

/-- Witness for C6 (amended) at concrete playing states. -/
theorem c6_load_failure_amended_witness :
    (WavPy.playCurrent false WavPy.wC6).1 = WavPy.wC6 :=
  (c6_load_failure_amended WavPy.wC6 PygameResume.pC6 (by decide)
    (by decide)).1
